import Mathlib

/-!
Verification of the roth-pomodoro timer application.

The development shallowly embeds the Rust sources:
  * `src/settings.rs`   — `Settings`, `SettingsDraft`, `SettingsDraft::parse`,
    `SettingsDraft::from_settings`
  * `src/db.rs`         — `load_settings` (the store row is passed as an
    explicit `Option SettingsRow` argument: `none` models an unreachable or
    uninitialized store / missing row / row-read error)
  * `src/pomodoro_timer.rs` — the `PomodoroTimer` state and
    `PomodoroTimer::update` state machine.

Modelling conventions:
  * Rust `u32` values are `Nat` with explicit `% 4294967296` where the code
    can wrap (`as u32` casts, `+=`), `min _ 4294967295` for the saturating
    operations (`saturating_add`, `saturating_mul`).
  * Rust `Instant` and `Duration` are `Nat` nanoseconds; `Instant - Instant`
    saturates at zero exactly as `Nat` subtraction does, `as_secs` is
    division by `10^9`.
  * Rust `String` is `List Char`.
  * `Instant::now()` reads inside the handlers are modelled by a time
    argument carried on the corresponding message; the availability check
    `rodio::OutputStream::try_default()` before the alarm send is modelled
    by a boolean carried on the tick message.
  * Audio commands sent to the worker channel are returned by `update` as a
    list; persistence calls are fire-and-forget and carry no state, so they
    are not modelled.
-/

def u32Max : Nat := 4294967295

def u32Mod : Nat := 4294967296

def nsPerSec : Nat := 1000000000

/-! ## Decimal strings: Rust `u32::from_str`, `str::trim`, `u32::to_string` -/

/-- Value of a list of decimal digit characters, most significant first
(the accumulator loop of integer parsing). -/
def digitsVal (l : List Char) : Nat :=
  l.foldl (fun a c => 10 * a + (c.toNat - 48)) 0

/-- Rust `str::parse::<u32>()` (`u32::from_str`): an optional leading `+`
sign, then one or more ASCII digits, value at most `u32::MAX`; a leading
`-`, an empty string, a non-digit character or overflow all fail. -/
def parse_u32 (l : List Char) : Option Nat :=
  let l1 := if l.head? = some '+' then l.tail else l
  if l1 ≠ [] ∧ l1.all Char.isDigit ∧ digitsVal l1 ≤ u32Max then
    some (digitsVal l1)
  else
    none

/-- Rust `str::trim`: remove whitespace from both ends. -/
def trim (l : List Char) : List Char :=
  ((l.dropWhile Char.isWhitespace).reverse.dropWhile Char.isWhitespace).reverse

/-- The ASCII character of a decimal digit. -/
def digitChar (d : Nat) : Char :=
  match d with
  | 0 => '0' | 1 => '1' | 2 => '2' | 3 => '3' | 4 => '4'
  | 5 => '5' | 6 => '6' | 7 => '7' | 8 => '8' | _ => '9'

/-- Accumulator loop of decimal printing; `fuel` only forces structural
termination and any `fuel > n` computes the digits of `n`. -/
def natDigitsCore (fuel n : Nat) (acc : List Char) : List Char :=
  match fuel with
  | 0 => acc
  | fuel + 1 =>
    if n < 10 then digitChar n :: acc
    else natDigitsCore fuel (n / 10) (digitChar (n % 10) :: acc)

/-- Rust `u32::to_string`: decimal digits of `n`, most significant first. -/
def natDigits (n : Nat) : List Char :=
  natDigitsCore (n + 1) n []

/-! ## `src/settings.rs` -/

/-- Rust `Screen` in `src/settings.rs`. -/
inductive Screen where
  | timer
  | settings
deriving DecidableEq

/-- Rust `Settings` in `src/settings.rs`; all fields are `u32`. -/
structure Settings where
  work_seconds : Nat
  short_break_seconds : Nat
  long_break_seconds : Nat
  long_break_every : Nat
deriving DecidableEq

/-- Rust `Settings::default()`: `WORK_LENGTH = 1500`, `BREAK_LENGTH = 300`,
`LONG_BREAK_LENGTH = 900`, `DEFAULT_LONG_BREAK_EVERY = 4`. -/
def Settings.default : Settings :=
  { work_seconds := 1500
    short_break_seconds := 300
    long_break_seconds := 900
    long_break_every := 4 }

/-- Rust `SettingsDraft` in `src/settings.rs`: four free-form text fields. -/
structure SettingsDraft where
  work_minutes : List Char
  short_break_minutes : List Char
  long_break_minutes : List Char
  long_break_every : List Char
deriving DecidableEq

/-- Rust `SettingsDraft::from_settings`. -/
def SettingsDraft.from_settings (s : Settings) : SettingsDraft :=
  { work_minutes := natDigits (s.work_seconds / 60)
    short_break_minutes := natDigits (s.short_break_seconds / 60)
    long_break_minutes := natDigits (s.long_break_seconds / 60)
    long_break_every := natDigits s.long_break_every }

/-- Rust `SettingsDraft::parse`: trim and parse each field as `u32`
(propagating failure), reject any zero value, and build the `Settings`
with `saturating_mul(60)` on the three minute fields. -/
def SettingsDraft.parse (d : SettingsDraft) : Option Settings := do
  let work_minutes ← parse_u32 (trim d.work_minutes)
  let short_break_minutes ← parse_u32 (trim d.short_break_minutes)
  let long_break_minutes ← parse_u32 (trim d.long_break_minutes)
  let long_break_every ← parse_u32 (trim d.long_break_every)
  if work_minutes = 0 ∨ short_break_minutes = 0 ∨ long_break_minutes = 0 ∨
      long_break_every = 0 then
    none
  else
    some { work_seconds := min (work_minutes * 60) u32Max
           short_break_seconds := min (short_break_minutes * 60) u32Max
           long_break_seconds := min (long_break_minutes * 60) u32Max
           long_break_every := long_break_every }

/-! ## `src/db.rs` -/

/-- One row of the `app_settings` table as SQLite hands it back: four
`i64` columns. -/
structure SettingsRow where
  work_seconds : Int
  short_break_seconds : Int
  long_break_seconds : Int
  long_break_every : Int
deriving DecidableEq

/-- Rust `x as u32` for `x : i64`: the low 32 bits. -/
def i64ToU32 (x : Int) : Nat :=
  (x % (4294967296 : Int)).toNat

/-- Rust `load_settings` in `src/db.rs`. The store is passed explicitly:
`none` models a failed `open()`/`init()`, a missing row or a row-read
error (all of which return `Settings::default()`); `some r` models a
successfully read row, kept only when its cast `long_break_every` is
positive. -/
def load_settings (row : Option SettingsRow) : Settings :=
  match row with
  | none => Settings.default
  | some r =>
      let st : Settings :=
        { work_seconds := i64ToU32 r.work_seconds
          short_break_seconds := i64ToU32 r.short_break_seconds
          long_break_seconds := i64ToU32 r.long_break_seconds
          long_break_every := i64ToU32 r.long_break_every }
      if st.long_break_every > 0 then st else Settings.default

/-! ## `src/pomodoro_timer.rs` -/

/-- Rust `AudioCommand` in `src/pomodoro_timer.rs`. -/
inductive AudioCommand where
  | alarm
  | stop
deriving DecidableEq

/-- Rust `Message` in `src/pomodoro_timer.rs`. `tick` carries the
`Instant` argument and the boolean outcome of the
`rodio::OutputStream::try_default()` availability probe performed inside
the handler; `startStop` carries the `Instant::now()` read inside the
handler. -/
inductive Message where
  | tick (now : Nat) (audioOk : Bool)
  | startStop (now : Nat)
  | reset
  | resetPomoCounter
  | openSettings
  | closeSettings
  | settingsWorkMinutesChanged (value : List Char)
  | settingsShortBreakMinutesChanged (value : List Char)
  | settingsLongBreakMinutesChanged (value : List Char)
  | settingsLongBreakEveryChanged (value : List Char)
  | saveSettings
deriving DecidableEq

/-- Rust `PomodoroTimer` state (the `audio_sender` channel handle is
represented by the command list `update` returns instead). -/
structure TimerState where
  time_left : Nat
  end_time : Option Nat
  work_periods : Nat
  completed_pomodoros : Nat
  is_running : Bool
  started : Bool
  is_work_period : Bool
  screen : Screen
  settings : Settings
  settings_draft : SettingsDraft
  settings_error : Option (List Char)
deriving DecidableEq

/-- The error text set by the `SaveSettings` failure branch. -/
def invalidSettingsMsg : List Char :=
  "Invalid settings. Use positive numbers for minutes and pomos.".data

/-- First half of the `Message::Tick` arm: when running with time left,
recompute `time_left = (end_time.unwrap() - now).as_secs() as u32`.
`Instant` subtraction saturates at zero (as `Nat` subtraction does),
`as_secs` floors to whole seconds, `as u32` truncates mod `2^32`. The
`unwrap` is modelled totally by `Option.getD 0`; its safety on reachable
states is proved separately. -/
def tickRecompute (s : TimerState) (now : Nat) : TimerState :=
  if s.is_running ∧ 0 < s.time_left then
    { s with time_left := (s.end_time.getD 0 - now) / nsPerSec % u32Mod }
  else s

/-- Second half of the `Message::Tick` arm: the period-transition branch
taken when `time_left == 0`. The sequential field mutations of the Rust
code are captured by the intermediate `let`s (`work_periods` is
incremented before the long-break test reads it; `is_work_period` is
flipped before the new `time_left` is chosen). The alarm is sent only
when the audio-output probe succeeds. Note the branch does not touch
`end_time`. -/
def tickTransition (s : TimerState) (audioOk : Bool) :
    TimerState × List AudioCommand :=
  if s.time_left = 0 then
    let wp := if s.is_work_period then (s.work_periods + 1) % u32Mod
              else s.work_periods
    let cp := if s.is_work_period then min (s.completed_pomodoros + 1) u32Max
              else s.completed_pomodoros
    let p := !s.is_work_period
    let tl := if p then s.settings.work_seconds
              else if wp % s.settings.long_break_every = 0 then
                s.settings.long_break_seconds
              else s.settings.short_break_seconds
    ({ s with started := false, work_periods := wp, completed_pomodoros := cp,
              is_work_period := p, time_left := tl, is_running := false },
     if audioOk then [AudioCommand.alarm] else [])
  else (s, [])

/-- Rust `PomodoroTimer::update`: the event handler, returning the new
state and the audio commands sent during the event. -/
def update (s : TimerState) (m : Message) : TimerState × List AudioCommand :=
  match m with
  | Message.tick now audioOk => tickTransition (tickRecompute s now) audioOk
  | Message.startStop now =>
      if s.is_running then
        ({ s with is_running := false }, [])
      else
        ({ s with is_running := true, started := true,
                  end_time := some (now + s.time_left * nsPerSec) },
         [AudioCommand.stop])
  | Message.reset =>
      ({ s with is_running := false, is_work_period := true,
                time_left := s.settings.work_seconds, started := false,
                end_time := none, work_periods := 0 },
       [AudioCommand.stop])
  | Message.resetPomoCounter =>
      ({ s with completed_pomodoros := 0 }, [])
  | Message.openSettings =>
      ({ s with is_running := false, end_time := none, settings_error := none,
                settings_draft := SettingsDraft.from_settings s.settings,
                screen := Screen.settings }, [])
  | Message.closeSettings =>
      ({ s with settings_error := none, screen := Screen.timer }, [])
  | Message.settingsWorkMinutesChanged value =>
      ({ s with settings_draft := { s.settings_draft with work_minutes := value } }, [])
  | Message.settingsShortBreakMinutesChanged value =>
      ({ s with settings_draft := { s.settings_draft with short_break_minutes := value } }, [])
  | Message.settingsLongBreakMinutesChanged value =>
      ({ s with settings_draft := { s.settings_draft with long_break_minutes := value } }, [])
  | Message.settingsLongBreakEveryChanged value =>
      ({ s with settings_draft := { s.settings_draft with long_break_every := value } }, [])
  | Message.saveSettings =>
      match s.settings_draft.parse with
      | some st =>
          ({ s with settings := st, settings_error := none,
                    is_running := false, is_work_period := true,
                    time_left := st.work_seconds, started := false,
                    end_time := none, work_periods := 0,
                    screen := Screen.timer },
           [AudioCommand.stop])
      | none =>
          ({ s with settings_error := some invalidSettingsMsg }, [])

/-- Rust `PomodoroTimer::new()` after the store reads: the initial state
for the loaded `Settings` and persisted counter. -/
def initState (settings : Settings) (completed_pomodoros : Nat) : TimerState :=
  { time_left := settings.work_seconds
    end_time := none
    work_periods := 0
    completed_pomodoros := completed_pomodoros
    is_running := false
    started := false
    is_work_period := true
    screen := Screen.timer
    settings := settings
    settings_draft := SettingsDraft.from_settings settings
    settings_error := none }

/-- States reachable from some startup state by a sequence of events. The
startup state loads `Settings` from an arbitrary store (`row`) and an
arbitrary persisted counter. -/
inductive Reachable : TimerState → Prop where
  | init (row : Option SettingsRow) (completed : Nat) :
      Reachable (initState (load_settings row) completed)
  | step {s : TimerState} (m : Message) :
      Reachable s → Reachable (update s m).1

/-! ## Helper lemmas: decimal digits -/

theorem digitChar_isDigit (d : Nat) : (digitChar d).isDigit = true := by
  unfold digitChar
  rcases d with _|_|_|_|_|_|_|_|_|_ <;> rfl

theorem digitChar_toNat {d : Nat} (h : d < 10) :
    (digitChar d).toNat = 48 + d := by
  interval_cases d <;> decide

theorem natDigitsCore_append (fuel : Nat) :
    ∀ n acc, natDigitsCore fuel n acc = natDigitsCore fuel n [] ++ acc := by
  induction fuel with
  | zero => intro n acc; rfl
  | succ fuel ih =>
    intro n acc
    show natDigitsCore (fuel + 1) n acc = natDigitsCore (fuel + 1) n [] ++ acc
    unfold natDigitsCore
    split
    · rfl
    · rw [ih (n / 10) (digitChar (n % 10) :: acc),
          ih (n / 10) [digitChar (n % 10)], List.append_assoc]
      rfl

theorem natDigitsCore_all_digit (fuel : Nat) :
    ∀ n acc, (∀ c ∈ acc, c.isDigit = true) →
      ∀ c ∈ natDigitsCore fuel n acc, c.isDigit = true := by
  induction fuel with
  | zero => intro n acc hacc; exact hacc
  | succ fuel ih =>
    intro n acc hacc
    unfold natDigitsCore
    split
    · intro c hc
      rcases List.mem_cons.mp hc with h | h
      · subst h
        exact digitChar_isDigit _
      · exact hacc c h
    · refine ih (n / 10) _ ?_
      intro c hc
      rcases List.mem_cons.mp hc with h | h
      · subst h
        exact digitChar_isDigit _
      · exact hacc c h

theorem natDigits_all_digit (n : Nat) :
    ∀ c ∈ natDigits n, c.isDigit = true :=
  natDigitsCore_all_digit (n + 1) n [] (by intro c hc; cases hc)

theorem natDigits_ne_nil (n : Nat) : natDigits n ≠ [] := by
  unfold natDigits natDigitsCore
  split
  · simp
  · rw [natDigitsCore_append]
    simp

theorem digitsVal_append_singleton (l : List Char) (c : Char) :
    digitsVal (l ++ [c]) = 10 * digitsVal l + (c.toNat - 48) := by
  simp [digitsVal, List.foldl_append]

theorem digitsVal_natDigitsCore (fuel : Nat) :
    ∀ n, n < fuel → digitsVal (natDigitsCore fuel n []) = n := by
  induction fuel with
  | zero => intro n h; omega
  | succ fuel ih =>
    intro n h
    unfold natDigitsCore
    split
    · rename_i h10
      simp only [digitsVal, List.foldl_cons, List.foldl_nil, digitChar_toNat h10]
      omega
    · rename_i h10
      rw [natDigitsCore_append, digitsVal_append_singleton,
          ih (n / 10) (by omega), digitChar_toNat (Nat.mod_lt _ (by omega))]
      omega

theorem digitsVal_natDigits (n : Nat) : digitsVal (natDigits n) = n :=
  digitsVal_natDigitsCore (n + 1) n (Nat.lt_succ_self n)

theorem dropWhile_eq_self_of_no_match {p : Char → Bool} {l : List Char}
    (h : ∀ c ∈ l, p c = false) : l.dropWhile p = l := by
  cases l with
  | nil => rfl
  | cons c cs =>
    rw [List.dropWhile_cons, h c (List.mem_cons_self c cs)]
    simp

theorem trim_eq_self_of_no_whitespace {l : List Char}
    (h : ∀ c ∈ l, c.isWhitespace = false) : trim l = l := by
  unfold trim
  rw [dropWhile_eq_self_of_no_match h,
      dropWhile_eq_self_of_no_match (by
        intro c hc
        exact h c (List.mem_reverse.mp hc)),
      List.reverse_reverse]

theorem isDigit_not_whitespace {c : Char} (h : c.isDigit = true) :
    c.isWhitespace = false := by
  by_contra hw
  rw [Bool.not_eq_false] at hw
  simp only [Char.isWhitespace, Bool.or_eq_true, decide_eq_true_eq] at hw
  simp only [Char.isDigit, Bool.and_eq_true, decide_eq_true_eq] at h
  rcases hw with ((hq | hq) | hq) | hq <;> subst hq <;> revert h <;> decide

theorem trim_natDigits (n : Nat) : trim (natDigits n) = natDigits n :=
  trim_eq_self_of_no_whitespace fun c hc =>
    isDigit_not_whitespace (natDigits_all_digit n c hc)

theorem parse_u32_natDigits {n : Nat} (h : n ≤ u32Max) :
    parse_u32 (natDigits n) = some n := by
  have hne : natDigits n ≠ [] := natDigits_ne_nil n
  have hdig : ∀ c ∈ natDigits n, c.isDigit = true := natDigits_all_digit n
  have hhead : (natDigits n).head? ≠ some '+' := by
    intro hcontra
    have hmem : '+' ∈ natDigits n := by
      cases hl : natDigits n with
      | nil => exact absurd hl hne
      | cons c cs =>
        rw [hl] at hcontra
        simp only [List.head?] at hcontra
        rw [List.mem_cons]
        left
        exact (Option.some_injective _ hcontra).symm
    have := hdig '+' hmem
    simp at this
  simp only [parse_u32]
  rw [if_neg hhead,
      if_pos ⟨hne, by simpa [List.all_eq_true] using hdig,
        by rw [digitsVal_natDigits]; exact h⟩,
      digitsVal_natDigits]

/-! ## Helper lemmas: the tick recompute step touches only `time_left` -/

theorem tickRecompute_is_running (s : TimerState) (now : Nat) :
    (tickRecompute s now).is_running = s.is_running := by
  unfold tickRecompute; split <;> rfl

theorem tickRecompute_end_time (s : TimerState) (now : Nat) :
    (tickRecompute s now).end_time = s.end_time := by
  unfold tickRecompute; split <;> rfl

theorem tickRecompute_work_periods (s : TimerState) (now : Nat) :
    (tickRecompute s now).work_periods = s.work_periods := by
  unfold tickRecompute; split <;> rfl

theorem tickRecompute_completed_pomodoros (s : TimerState) (now : Nat) :
    (tickRecompute s now).completed_pomodoros = s.completed_pomodoros := by
  unfold tickRecompute; split <;> rfl

theorem tickRecompute_is_work_period (s : TimerState) (now : Nat) :
    (tickRecompute s now).is_work_period = s.is_work_period := by
  unfold tickRecompute; split <;> rfl

theorem tickRecompute_started (s : TimerState) (now : Nat) :
    (tickRecompute s now).started = s.started := by
  unfold tickRecompute; split <;> rfl

theorem tickRecompute_settings (s : TimerState) (now : Nat) :
    (tickRecompute s now).settings = s.settings := by
  unfold tickRecompute; split <;> rfl

theorem tickRecompute_screen (s : TimerState) (now : Nat) :
    (tickRecompute s now).screen = s.screen := by
  unfold tickRecompute; split <;> rfl

/-! ## Helper lemma: the running-implies-deadline invariant -/

theorem reachable_running_has_end_time {s : TimerState} (h : Reachable s) :
    s.is_running = true → s.end_time ≠ none := by
  induction h with
  | init row completed =>
    intro hr
    simp [initState] at hr
  | @step s' m _ ih =>
    cases m with
    | tick now audioOk =>
      simp only [update, tickTransition]
      split
      · intro hr
        simp at hr
      · intro hr
        show (tickRecompute s' now).end_time ≠ none
        rw [tickRecompute_end_time]
        have hr2 : (tickRecompute s' now).is_running = true := hr
        rw [tickRecompute_is_running] at hr2
        exact ih hr2
    | startStop now =>
      simp only [update]
      split
      · intro hr
        simp at hr
      · intro _
        simp
    | reset =>
      intro hr
      simp [update] at hr
    | resetPomoCounter =>
      intro hr
      exact ih hr
    | openSettings =>
      intro hr
      simp [update] at hr
    | closeSettings =>
      intro hr
      exact ih hr
    | settingsWorkMinutesChanged v =>
      intro hr
      exact ih hr
    | settingsShortBreakMinutesChanged v =>
      intro hr
      exact ih hr
    | settingsLongBreakMinutesChanged v =>
      intro hr
      exact ih hr
    | settingsLongBreakEveryChanged v =>
      intro hr
      exact ih hr
    | saveSettings =>
      simp only [update]
      cases hp : s'.settings_draft.parse with
      | some st =>
        intro hr
        simp at hr
      | none =>
        intro hr
        exact ih hr

/-! ## Claim theorems -/

/-- C8: for every state, the Reset event sets `is_running = false`,
`is_work_period = true`, `time_left = settings.work_seconds`,
`started = false`, `end_time = none`, `work_periods = 0`, emits exactly a
Stop audio command, and changes no other field — in particular
`completed_pomodoros`, the screen, the settings, the draft and the error
message are unchanged. -/
theorem reset_frame (s : TimerState) :
    (update s Message.reset).1.is_running = false ∧
    (update s Message.reset).1.is_work_period = true ∧
    (update s Message.reset).1.time_left = s.settings.work_seconds ∧
    (update s Message.reset).1.started = false ∧
    (update s Message.reset).1.end_time = none ∧
    (update s Message.reset).1.work_periods = 0 ∧
    (update s Message.reset).2 = [AudioCommand.stop] ∧
    (update s Message.reset).1.completed_pomodoros = s.completed_pomodoros ∧
    (update s Message.reset).1.screen = s.screen ∧
    (update s Message.reset).1.settings = s.settings ∧
    (update s Message.reset).1.settings_draft = s.settings_draft ∧
    (update s Message.reset).1.settings_error = s.settings_error :=
  ⟨rfl, rfl, rfl, rfl, rfl, rfl, rfl, rfl, rfl, rfl, rfl, rfl⟩

/-- C9: no event other than ResetPomoCounter ever decreases
`completed_pomodoros` (the only write is a `saturating_add`), and the
ResetPomoCounter event sets it to 0. The hypothesis
`completed_pomodoros ≤ u32Max` is the `u32` range of the Rust field. -/
theorem completed_pomodoros_evolution (s : TimerState) (m : Message)
    (hc : s.completed_pomodoros ≤ u32Max)
    (hm : m ≠ Message.resetPomoCounter) :
    s.completed_pomodoros ≤ (update s m).1.completed_pomodoros ∧
    (update s Message.resetPomoCounter).1.completed_pomodoros = 0 := by
  refine ⟨?_, rfl⟩
  cases m with
  | tick now audioOk =>
    have hcp := tickRecompute_completed_pomodoros s now
    show s.completed_pomodoros ≤
      (tickTransition (tickRecompute s now) audioOk).1.completed_pomodoros
    unfold tickTransition
    split
    · show s.completed_pomodoros ≤
        (if (tickRecompute s now).is_work_period then
          min ((tickRecompute s now).completed_pomodoros + 1) u32Max
        else (tickRecompute s now).completed_pomodoros)
      rw [hcp]
      split
      · omega
      · exact Nat.le_refl _
    · show s.completed_pomodoros ≤ (tickRecompute s now).completed_pomodoros
      rw [hcp]
  | startStop now =>
    show s.completed_pomodoros ≤
      (if s.is_running then _ else _ : TimerState × List AudioCommand).1.completed_pomodoros
    split
    · exact Nat.le_refl _
    · exact Nat.le_refl _
  | reset => exact Nat.le_refl _
  | resetPomoCounter => exact absurd rfl hm
  | openSettings => exact Nat.le_refl _
  | closeSettings => exact Nat.le_refl _
  | settingsWorkMinutesChanged v => exact Nat.le_refl _
  | settingsShortBreakMinutesChanged v => exact Nat.le_refl _
  | settingsLongBreakMinutesChanged v => exact Nat.le_refl _
  | settingsLongBreakEveryChanged v => exact Nat.le_refl _
  | saveSettings =>
    show s.completed_pomodoros ≤
      ((match s.settings_draft.parse with
        | some st =>
            ({ s with settings := st, settings_error := none,
                      is_running := false, is_work_period := true,
                      time_left := st.work_seconds, started := false,
                      end_time := none, work_periods := 0,
                      screen := Screen.timer },
             [AudioCommand.stop])
        | none =>
            ({ s with settings_error := some invalidSettingsMsg }, [])
        : TimerState × List AudioCommand)).1.completed_pomodoros
    cases s.settings_draft.parse with
    | some st => exact Nat.le_refl _
    | none => exact Nat.le_refl _

/-- C9 witness: instantiated at the startup state and the Reset event. -/
theorem completed_pomodoros_evolution_witness :
    (initState (load_settings none) 0).completed_pomodoros ≤ u32Max ∧
    Message.reset ≠ Message.resetPomoCounter ∧
    ((initState (load_settings none) 0).completed_pomodoros ≤
      (update (initState (load_settings none) 0) Message.reset).1.completed_pomodoros ∧
     (update (initState (load_settings none) 0)
        Message.resetPomoCounter).1.completed_pomodoros = 0) :=
  ⟨by decide, by decide,
   completed_pomodoros_evolution (initState (load_settings none) 0) Message.reset
     (by decide) (by decide)⟩

/-- C5: when the draft fails to parse, SaveSettings only sets the
(non-empty) error message: the screen stays on Settings, the draft text,
the adopted settings and every timer field are unchanged, and no audio
command is sent. -/
theorem save_settings_failure (s : TimerState)
    (hscreen : s.screen = Screen.settings)
    (hfail : s.settings_draft.parse = none) :
    (update s Message.saveSettings).1.settings_error = some invalidSettingsMsg ∧
    invalidSettingsMsg ≠ [] ∧
    (update s Message.saveSettings).1.screen = Screen.settings ∧
    (update s Message.saveSettings).1.settings_draft = s.settings_draft ∧
    (update s Message.saveSettings).1.settings = s.settings ∧
    (update s Message.saveSettings).1.time_left = s.time_left ∧
    (update s Message.saveSettings).1.end_time = s.end_time ∧
    (update s Message.saveSettings).1.work_periods = s.work_periods ∧
    (update s Message.saveSettings).1.completed_pomodoros = s.completed_pomodoros ∧
    (update s Message.saveSettings).1.is_running = s.is_running ∧
    (update s Message.saveSettings).1.started = s.started ∧
    (update s Message.saveSettings).1.is_work_period = s.is_work_period ∧
    (update s Message.saveSettings).2 = [] := by
  have hupd : update s Message.saveSettings =
      ({ s with settings_error := some invalidSettingsMsg }, []) := by
    unfold update
    rw [hfail]
  rw [hupd]
  exact ⟨rfl, by decide, hscreen, rfl, rfl, rfl, rfl, rfl, rfl, rfl, rfl, rfl, rfl⟩

/-- A concrete state on the Settings screen whose draft (work minutes
edited to the text `0`) fails validation. -/
def failDraftState : TimerState :=
  (update (update (initState (load_settings none) 0) Message.openSettings).1
      (Message.settingsWorkMinutesChanged ['0'])).1

/-- C5 witness: instantiated at `failDraftState`, reachable by opening
the settings screen from the startup state and typing `0` into the work
minutes field. -/
theorem save_settings_failure_witness :
    failDraftState.screen = Screen.settings ∧
    failDraftState.settings_draft.parse = none ∧
    ((update failDraftState Message.saveSettings).1.settings_error =
        some invalidSettingsMsg ∧
     invalidSettingsMsg ≠ [] ∧
     (update failDraftState Message.saveSettings).1.screen = Screen.settings ∧
     (update failDraftState Message.saveSettings).1.settings_draft =
        failDraftState.settings_draft ∧
     (update failDraftState Message.saveSettings).1.settings =
        failDraftState.settings ∧
     (update failDraftState Message.saveSettings).1.time_left =
        failDraftState.time_left ∧
     (update failDraftState Message.saveSettings).1.end_time =
        failDraftState.end_time ∧
     (update failDraftState Message.saveSettings).1.work_periods =
        failDraftState.work_periods ∧
     (update failDraftState Message.saveSettings).1.completed_pomodoros =
        failDraftState.completed_pomodoros ∧
     (update failDraftState Message.saveSettings).1.is_running =
        failDraftState.is_running ∧
     (update failDraftState Message.saveSettings).1.started =
        failDraftState.started ∧
     (update failDraftState Message.saveSettings).1.is_work_period =
        failDraftState.is_work_period ∧
     (update failDraftState Message.saveSettings).2 = []) :=
  ⟨rfl, by decide,
   save_settings_failure failDraftState rfl (by decide)⟩

/-- C4: while running with time left, a Tick recomputes
`time_left = max(0, end_time - now)` in whole seconds rounded down: the
`Instant` subtraction saturates at zero (`Nat` subtraction), so a `now`
past `end_time` yields 0 rather than a panic; and whenever the recomputed
value is still positive the event changes `time_left` to exactly that
value. The bound hypothesis is the `u32` range of the whole-second
difference (the `as u32` cast). -/
theorem tick_recompute_time_left (s : TimerState) (now e : Nat) (audioOk : Bool)
    (hrun : s.is_running = true) (hpos : 0 < s.time_left)
    (hend : s.end_time = some e) (hbound : (e - now) / nsPerSec < u32Mod) :
    (tickRecompute s now).time_left = (e - now) / nsPerSec ∧
    (e ≤ now → (tickRecompute s now).time_left = 0) ∧
    (0 < (e - now) / nsPerSec →
      (update s (Message.tick now audioOk)).1.time_left = (e - now) / nsPerSec) := by
  have h1 : (tickRecompute s now).time_left = (e - now) / nsPerSec := by
    unfold tickRecompute
    rw [if_pos ⟨hrun, hpos⟩]
    show (s.end_time.getD 0 - now) / nsPerSec % u32Mod = _
    rw [hend]
    exact Nat.mod_eq_of_lt hbound
  refine ⟨h1, ?_, ?_⟩
  · intro hle
    rw [h1, Nat.sub_eq_zero_of_le hle, Nat.zero_div]
  · intro hlt
    show (tickTransition (tickRecompute s now) audioOk).1.time_left = _
    unfold tickTransition
    rw [if_neg (by rw [h1]; omega)]
    exact h1

/-- The startup state after one StartStop at instant 0: running, with
`end_time = now + time_left` seconds. -/
def runState1 : TimerState :=
  (update (initState (load_settings none) 0) (Message.startStop 0)).1

/-- C4 witness: the running startup state ticked at `now = 1s` recomputes
1499 remaining seconds. -/
theorem tick_recompute_time_left_witness :
    runState1.is_running = true ∧ 0 < runState1.time_left ∧
    runState1.end_time = some 1500000000000 ∧
    (1500000000000 - 1000000000) / nsPerSec < u32Mod ∧
    ((tickRecompute runState1 1000000000).time_left =
        (1500000000000 - 1000000000) / nsPerSec ∧
     (1500000000000 ≤ 1000000000 →
        (tickRecompute runState1 1000000000).time_left = 0) ∧
     (0 < (1500000000000 - 1000000000) / nsPerSec →
        (update runState1 (Message.tick 1000000000 true)).1.time_left =
          (1500000000000 - 1000000000) / nsPerSec)) :=
  ⟨rfl, by decide, by decide, by decide,
   tick_recompute_time_left runState1 1000000000 1500000000000 true rfl
     (by decide) (by decide) (by decide)⟩

/-- C1: when a running timer's `time_left` reaches 0 on a Tick, the
update stops the timer (`is_running = false`, `started = false`); if the
ended period was a work period it increments `work_periods` and
`completed_pomodoros`; it flips `is_work_period`; and the new `time_left`
is `work_seconds` when entering a work period, `long_break_seconds` when
the post-increment `work_periods` is a multiple of `long_break_every`,
and `short_break_seconds` otherwise. The two bound hypotheses are the
`u32` ranges of the counters (`work_periods += 1` wraps at `2^32`;
`completed_pomodoros` uses `saturating_add`). -/
theorem tick_period_transition (s : TimerState) (now : Nat) (audioOk : Bool)
    (_hrun : s.is_running = true)
    (hz : (tickRecompute s now).time_left = 0)
    (hwp : s.work_periods + 1 < u32Mod)
    (hcp : s.completed_pomodoros < u32Max) :
    (update s (Message.tick now audioOk)).1.is_running = false ∧
    (update s (Message.tick now audioOk)).1.started = false ∧
    (update s (Message.tick now audioOk)).1.is_work_period = !s.is_work_period ∧
    (s.is_work_period = true →
      (update s (Message.tick now audioOk)).1.work_periods = s.work_periods + 1 ∧
      (update s (Message.tick now audioOk)).1.completed_pomodoros =
        s.completed_pomodoros + 1) ∧
    (s.is_work_period = false →
      (update s (Message.tick now audioOk)).1.work_periods = s.work_periods ∧
      (update s (Message.tick now audioOk)).1.completed_pomodoros =
        s.completed_pomodoros) ∧
    (s.is_work_period = false →
      (update s (Message.tick now audioOk)).1.time_left = s.settings.work_seconds) ∧
    (s.is_work_period = true →
      (update s (Message.tick now audioOk)).1.time_left =
        (if (s.work_periods + 1) % s.settings.long_break_every = 0 then
          s.settings.long_break_seconds
        else s.settings.short_break_seconds)) := by
  have hupd : (update s (Message.tick now audioOk)) =
      tickTransition (tickRecompute s now) audioOk := rfl
  rw [hupd]
  unfold tickTransition
  rw [if_pos hz]
  simp only [tickRecompute_is_work_period, tickRecompute_work_periods,
    tickRecompute_completed_pomodoros, tickRecompute_settings]
  have hmod : (s.work_periods + 1) % u32Mod = s.work_periods + 1 :=
    Nat.mod_eq_of_lt hwp
  have hmin : min (s.completed_pomodoros + 1) u32Max = s.completed_pomodoros + 1 :=
    Nat.min_eq_left (by omega)
  cases hw : s.is_work_period with
  | true => simp [hw, hmod, hmin]
  | false => simp [hw]

/-- C1 witness: the running startup state ticked at `now = end_time`
(work period ends): counters become 1, the period flips to a break, and
because `1 % 4 ≠ 0` the break is short (300 s). -/
theorem tick_period_transition_witness :
    runState1.is_running = true ∧
    (tickRecompute runState1 1500000000000).time_left = 0 ∧
    runState1.work_periods + 1 < u32Mod ∧
    runState1.completed_pomodoros < u32Max ∧
    ((update runState1 (Message.tick 1500000000000 true)).1.is_running = false ∧
     (update runState1 (Message.tick 1500000000000 true)).1.started = false ∧
     (update runState1 (Message.tick 1500000000000 true)).1.is_work_period =
        !runState1.is_work_period ∧
     (runState1.is_work_period = true →
       (update runState1 (Message.tick 1500000000000 true)).1.work_periods =
          runState1.work_periods + 1 ∧
       (update runState1 (Message.tick 1500000000000 true)).1.completed_pomodoros =
          runState1.completed_pomodoros + 1) ∧
     (runState1.is_work_period = false →
       (update runState1 (Message.tick 1500000000000 true)).1.work_periods =
          runState1.work_periods ∧
       (update runState1 (Message.tick 1500000000000 true)).1.completed_pomodoros =
          runState1.completed_pomodoros) ∧
     (runState1.is_work_period = false →
       (update runState1 (Message.tick 1500000000000 true)).1.time_left =
          runState1.settings.work_seconds) ∧
     (runState1.is_work_period = true →
       (update runState1 (Message.tick 1500000000000 true)).1.time_left =
          (if (runState1.work_periods + 1) % runState1.settings.long_break_every = 0
           then runState1.settings.long_break_seconds
           else runState1.settings.short_break_seconds))) :=
  ⟨rfl, by decide, by decide, by decide,
   tick_period_transition runState1 1500000000000 true rfl (by decide)
     (by decide) (by decide)⟩

/-- C3: `SettingsDraft::parse` returns `none` exactly when some field
fails to parse as a non-negative whole number (Rust `u32` parsing: empty,
non-numeric, negative, or beyond `u32::MAX`) or some parsed value is
zero; otherwise it returns the `Settings` whose three second fields are
the minute values multiplied by 60 with saturating arithmetic, any
successfully parsed nonzero values being accepted with no further upper
bound. -/
theorem parse_characterization (d : SettingsDraft) :
    (d.parse = none ↔
      ¬ ∃ w s l e, parse_u32 (trim d.work_minutes) = some w ∧
        parse_u32 (trim d.short_break_minutes) = some s ∧
        parse_u32 (trim d.long_break_minutes) = some l ∧
        parse_u32 (trim d.long_break_every) = some e ∧
        0 < w ∧ 0 < s ∧ 0 < l ∧ 0 < e) ∧
    (∀ w s l e, parse_u32 (trim d.work_minutes) = some w →
      parse_u32 (trim d.short_break_minutes) = some s →
      parse_u32 (trim d.long_break_minutes) = some l →
      parse_u32 (trim d.long_break_every) = some e →
      0 < w → 0 < s → 0 < l → 0 < e →
      d.parse = some { work_seconds := min (w * 60) u32Max
                       short_break_seconds := min (s * 60) u32Max
                       long_break_seconds := min (l * 60) u32Max
                       long_break_every := e }) := by
  cases hw : parse_u32 (trim d.work_minutes) with
  | none => simp [SettingsDraft.parse, hw]
  | some w =>
    cases hs : parse_u32 (trim d.short_break_minutes) with
    | none => simp [SettingsDraft.parse, hw, hs]
    | some s =>
      cases hl : parse_u32 (trim d.long_break_minutes) with
      | none => simp [SettingsDraft.parse, hw, hs, hl]
      | some l =>
        cases he : parse_u32 (trim d.long_break_every) with
        | none => simp [SettingsDraft.parse, hw, hs, hl, he]
        | some e =>
          have hparse : d.parse =
              (if w = 0 ∨ s = 0 ∨ l = 0 ∨ e = 0 then none
               else some { work_seconds := min (w * 60) u32Max
                           short_break_seconds := min (s * 60) u32Max
                           long_break_seconds := min (l * 60) u32Max
                           long_break_every := e }) := by
            simp [SettingsDraft.parse, hw, hs, hl, he]
          constructor
          · rw [hparse]
            by_cases hzero : w = 0 ∨ s = 0 ∨ l = 0 ∨ e = 0
            · rw [if_pos hzero]
              constructor
              · rintro - ⟨w', s', l', e', h1, h2, h3, h4, p1, p2, p3, p4⟩
                injection h1 with h1
                injection h2 with h2
                injection h3 with h3
                injection h4 with h4
                subst h1; subst h2; subst h3; subst h4
                omega
              · intro _
                rfl
            · rw [if_neg hzero]
              constructor
              · intro hcontra
                exact absurd hcontra (by simp)
              · intro hne
                exact absurd ⟨w, s, l, e, rfl, rfl, rfl, rfl, by omega, by omega,
                  by omega, by omega⟩ hne
          · intro w' s' l' e' h1 h2 h3 h4 p1 p2 p3 p4
            injection h1 with h1
            injection h2 with h2
            injection h3 with h3
            injection h4 with h4
            subst h1; subst h2; subst h3; subst h4
            rw [hparse, if_neg (by omega)]

/-- C7: for every valid `Settings` whose three second fields are nonzero
multiples of 60 within `u32` range and whose `long_break_every` is
nonzero, `parse (from_settings S) = some S`. -/
theorem parse_from_settings_roundtrip (s : Settings)
    (hwm : s.work_seconds % 60 = 0) (hw0 : s.work_seconds ≠ 0)
    (hwb : s.work_seconds ≤ u32Max)
    (hsm : s.short_break_seconds % 60 = 0) (hs0 : s.short_break_seconds ≠ 0)
    (hsb : s.short_break_seconds ≤ u32Max)
    (hlm : s.long_break_seconds % 60 = 0) (hl0 : s.long_break_seconds ≠ 0)
    (hlb : s.long_break_seconds ≤ u32Max)
    (he0 : s.long_break_every ≠ 0) (heb : s.long_break_every ≤ u32Max) :
    (SettingsDraft.from_settings s).parse = some s := by
  have pw : parse_u32 (trim (natDigits (s.work_seconds / 60))) =
      some (s.work_seconds / 60) := by
    rw [trim_natDigits]
    exact parse_u32_natDigits (by omega)
  have ps : parse_u32 (trim (natDigits (s.short_break_seconds / 60))) =
      some (s.short_break_seconds / 60) := by
    rw [trim_natDigits]
    exact parse_u32_natDigits (by omega)
  have pl : parse_u32 (trim (natDigits (s.long_break_seconds / 60))) =
      some (s.long_break_seconds / 60) := by
    rw [trim_natDigits]
    exact parse_u32_natDigits (by omega)
  have pe : parse_u32 (trim (natDigits s.long_break_every)) =
      some s.long_break_every := by
    rw [trim_natDigits]
    exact parse_u32_natDigits heb
  have e1 : min (s.work_seconds / 60 * 60) u32Max = s.work_seconds := by
    have h : s.work_seconds / 60 * 60 = s.work_seconds := by omega
    rw [h]
    exact Nat.min_eq_left hwb
  have e2 : min (s.short_break_seconds / 60 * 60) u32Max = s.short_break_seconds := by
    have h : s.short_break_seconds / 60 * 60 = s.short_break_seconds := by omega
    rw [h]
    exact Nat.min_eq_left hsb
  have e3 : min (s.long_break_seconds / 60 * 60) u32Max = s.long_break_seconds := by
    have h : s.long_break_seconds / 60 * 60 = s.long_break_seconds := by omega
    rw [h]
    exact Nat.min_eq_left hlb
  have hne : ¬ (s.work_seconds / 60 = 0 ∨ s.short_break_seconds / 60 = 0 ∨
      s.long_break_seconds / 60 = 0 ∨ s.long_break_every = 0) := by omega
  simp [SettingsDraft.parse, SettingsDraft.from_settings, pw, ps, pl, pe, hne,
    e1, e2, e3]

/-- C7 witness: the default settings (1500/300/900 seconds, every 4)
round-trip through the draft. -/
theorem parse_from_settings_roundtrip_witness :
    Settings.default.work_seconds % 60 = 0 ∧ Settings.default.work_seconds ≠ 0 ∧
    Settings.default.work_seconds ≤ u32Max ∧
    Settings.default.long_break_every ≠ 0 ∧
    Settings.default.long_break_every ≤ u32Max ∧
    (SettingsDraft.from_settings Settings.default).parse = some Settings.default :=
  ⟨by decide, by decide, by decide, by decide, by decide,
   parse_from_settings_roundtrip Settings.default (by decide) (by decide)
     (by decide) (by decide) (by decide) (by decide) (by decide) (by decide)
     (by decide) (by decide) (by decide)⟩

/-- The running startup state paused again by a second StartStop: not
running, but `end_time` is left stale at its old value. -/
def pausedState : TimerState :=
  (update runState1 (Message.startStop 1000000000)).1

/-- C2 counterexample: the reachable state obtained by StartStop at 0
then StartStop at 1s is not running yet still has `end_time = some _`,
so `end_time` is `Some` iff `is_running` fails on reachable states
(pausing — and likewise the Tick period transition — leaves `end_time`
stale). -/
theorem end_time_iff_running_cex :
    Reachable pausedState ∧ pausedState.is_running = false ∧
    pausedState.end_time = some 1500000000000 ∧
    ¬ (pausedState.end_time.isSome = true ↔ pausedState.is_running = true) :=
  ⟨Reachable.step (Message.startStop 1000000000)
     (Reachable.step (Message.startStop 0) (Reachable.init none 0)),
   by decide, by decide, by decide⟩

/-- C2 amended: in every reachable state, `is_running = true` implies
`end_time` is `Some`; the converse direction fails because pausing and
the Tick period transition leave `end_time` stale while not running. -/
theorem end_time_invariant_amended (s : TimerState) (h : Reachable s) :
    s.is_running = true → s.end_time.isSome = true := by
  intro hr
  have hne := reachable_running_has_end_time h hr
  cases he : s.end_time with
  | none => exact absurd he hne
  | some e => rfl

/-- C2 amended witness: the running startup state. -/
theorem end_time_invariant_amended_witness :
    Reachable runState1 ∧ runState1.is_running = true ∧
    runState1.end_time.isSome = true :=
  ⟨Reachable.step (Message.startStop 0) (Reachable.init none 0), rfl,
   end_time_invariant_amended runState1
     (Reachable.step (Message.startStop 0) (Reachable.init none 0)) rfl⟩

/-- C10: in every reachable state satisfying the Tick handler's guard
(`is_running` and `time_left > 0`), `end_time` is not `none`, so the
`end_time.unwrap()` in the Tick arm can never panic: the only event that
sets `is_running` also sets `end_time`, and every event that clears
`end_time` also clears `is_running`. -/
theorem tick_unwrap_never_panics (s : TimerState) (h : Reachable s)
    (hrun : s.is_running = true) (_hpos : 0 < s.time_left) :
    s.end_time ≠ none :=
  reachable_running_has_end_time h hrun

/-- C10 witness: the running startup state satisfies the guard and has a
deadline. -/
theorem tick_unwrap_never_panics_witness :
    Reachable runState1 ∧ runState1.is_running = true ∧
    0 < runState1.time_left ∧ runState1.end_time ≠ none :=
  ⟨Reachable.step (Message.startStop 0) (Reachable.init none 0), rfl, by decide,
   tick_unwrap_never_panics runState1
     (Reachable.step (Message.startStop 0) (Reachable.init none 0)) rfl
     (by decide)⟩

/-- C6 counterexample: a store row holding `work_seconds = 0` but
`long_break_every = 4` passes the load guard (which only checks
`long_break_every > 0`), so the loaded `Settings` has a zero field,
refuting the claim that every loaded value has all four fields
positive. -/
theorem load_settings_zero_field_cex :
    (load_settings (some (SettingsRow.mk 0 300 900 4))).work_seconds = 0 ∧
    ¬ (0 < (load_settings (some (SettingsRow.mk 0 300 900 4))).work_seconds) :=
  ⟨by decide, by decide⟩

/-- C6 amended: every `Settings` produced by a successful
`SettingsDraft::parse` has all four fields positive, and every loaded
`Settings` has `long_break_every` positive (the load guard falls back to
defaults only on an unreachable/uninitialized store or a
non-positive `long_break_every`; the three duration fields of a stored
row are passed through unchecked). -/
theorem settings_positive_amended :
    (∀ d st, SettingsDraft.parse d = some st →
      0 < st.work_seconds ∧ 0 < st.short_break_seconds ∧
      0 < st.long_break_seconds ∧ 0 < st.long_break_every) ∧
    (∀ row, 0 < (load_settings row).long_break_every) := by
  constructor
  · intro d st hp
    cases hw : parse_u32 (trim d.work_minutes) with
    | none => simp [SettingsDraft.parse, hw] at hp
    | some w =>
      cases hs : parse_u32 (trim d.short_break_minutes) with
      | none => simp [SettingsDraft.parse, hw, hs] at hp
      | some s =>
        cases hl : parse_u32 (trim d.long_break_minutes) with
        | none => simp [SettingsDraft.parse, hw, hs, hl] at hp
        | some l =>
          cases he : parse_u32 (trim d.long_break_every) with
          | none => simp [SettingsDraft.parse, hw, hs, hl, he] at hp
          | some e =>
            have hparse : d.parse =
                (if w = 0 ∨ s = 0 ∨ l = 0 ∨ e = 0 then none
                 else some { work_seconds := min (w * 60) u32Max
                             short_break_seconds := min (s * 60) u32Max
                             long_break_seconds := min (l * 60) u32Max
                             long_break_every := e }) := by
              simp [SettingsDraft.parse, hw, hs, hl, he]
            rw [hparse] at hp
            split at hp
            · exact absurd hp (by simp)
            · rename_i hzero
              injection hp with hp
              subst hp
              refine ⟨?_, ?_, ?_, ?_⟩
              · show 0 < min (w * 60) u32Max
                exact lt_min_iff.mpr ⟨by omega, by decide⟩
              · show 0 < min (s * 60) u32Max
                exact lt_min_iff.mpr ⟨by omega, by decide⟩
              · show 0 < min (l * 60) u32Max
                exact lt_min_iff.mpr ⟨by omega, by decide⟩
              · show 0 < e
                omega
  · intro row
    cases row with
    | none => decide
    | some r =>
      simp only [load_settings]
      split
      · rename_i hpos
        exact hpos
      · decide

/-- C6 amended witness: the draft with all fields `1` parses to a
positive `Settings`, and a load from an unreachable store yields the
default `long_break_every = 4 > 0`. -/
theorem settings_positive_amended_witness :
    SettingsDraft.parse (SettingsDraft.mk ['1'] ['1'] ['1'] ['1']) =
      some (Settings.mk 60 60 60 1) ∧
    (0 < (Settings.mk 60 60 60 1).work_seconds ∧
     0 < (Settings.mk 60 60 60 1).short_break_seconds ∧
     0 < (Settings.mk 60 60 60 1).long_break_seconds ∧
     0 < (Settings.mk 60 60 60 1).long_break_every) ∧
    0 < (load_settings none).long_break_every :=
  ⟨by decide,
   settings_positive_amended.1 (SettingsDraft.mk ['1'] ['1'] ['1'] ['1'])
     (Settings.mk 60 60 60 1) (by decide),
   settings_positive_amended.2 none⟩

/-- C3 witness: the draft with minutes 2/1/3 and count 4 parses to the
corresponding saturated-multiplied settings. -/
theorem parse_characterization_witness :
    parse_u32 (trim ['2']) = some 2 ∧
    SettingsDraft.parse (SettingsDraft.mk ['2'] ['1'] ['3'] ['4']) =
      some (Settings.mk 120 60 180 4) :=
  ⟨by decide,
   (parse_characterization (SettingsDraft.mk ['2'] ['1'] ['3'] ['4'])).2
     2 1 3 4 (by decide) (by decide) (by decide) (by decide)
     (by decide) (by decide) (by decide) (by decide)⟩
